import Mathlib

/-!
Shallow embedding of the faucet contract in src/lib.rs (an ink! smart
contract).  The contract state is the `Faucet` structure; the host
execution context (caller, block number, contract balance, and the
possibility of storage-level faults on `Mapping::try_get` /
`Mapping::try_insert`) is the `Env` structure, captured as a read-only
snapshot at call entry, matching the single-call semantics of the host.
Machine integers (`BlockNumber` = u32, `Balance` = u128 in ink's default
environment) are modelled as `Nat` with explicit saturation bounds where
the source uses `saturating_add`.
-/

namespace FaucetContract

abbrev AccountId := Nat
abbrev BlockNumber := Nat
abbrev Balance := Nat

/-- Maximum value of the u32 `BlockNumber` type. -/
def blockNumberMax : Nat := 2 ^ 32 - 1

/-- Maximum value of the u128 `Balance` type. -/
def balanceMax : Nat := 2 ^ 128 - 1

/-- Model of `BlockNumber::saturating_add` (u32). -/
def satAddBlock (a b : Nat) : Nat := min (a + b) blockNumberMax

/-- Model of `Balance::saturating_add` (u128). -/
def satAddBalance (a b : Nat) : Nat := min (a + b) balanceMax

/-- The error enum `FaucetError` of src/lib.rs. -/
inductive FaucetError
  | InCoolDown
  | NotActive
  | NotEnoughFunds
  | NotOwner
  | ValueTooLarge
deriving DecidableEq, Repr

/-- The `Drip` event of src/lib.rs: some tokens have been dripped. -/
structure Drip where
  value : Balance
  «to» : AccountId
deriving DecidableEq, Repr

/-- The `Faucet` storage struct of src/lib.rs.  The `Mapping` is a total
function to `Option BlockNumber`, absence of a key being `none`. -/
structure Faucet where
  active : Bool
  cooldown : BlockNumber
  drip_amount : Balance
  owner : Option AccountId
  last_request_of : AccountId → Option BlockNumber

/-- Host execution context, read-only during one call: `env().caller()`,
`env().block_number()`, `env().balance()`, plus the host-level storage
faults that make `Mapping::try_get` return `Some(Err(_))` (oversized
encoded key, or stored value exceeding the static buffer) and
`Mapping::try_insert` return `Err(_)`.  The two fault conditions live in
the host storage layer, outside src/lib.rs, so they are modelled as
independent per-key flags. -/
structure Env where
  caller : AccountId
  block_number : BlockNumber
  balance : Balance
  get_fault : AccountId → Bool
  insert_fault : AccountId → Bool

/-- Model of `ensure_active` (src/lib.rs lines 61-66). -/
def ensure_active (f : Faucet) : Except FaucetError Unit :=
  if !f.active then .error .NotActive else .ok ()

/-- Model of `ensure_owner` (src/lib.rs lines 69-74). -/
def ensure_owner (f : Faucet) (env : Env) : Except FaucetError Unit :=
  if f.owner ≠ some env.caller then .error .NotOwner else .ok ()

/-- Model of `Mapping::try_get`: `none` when the key is absent,
`some (.error ())` on a storage-level fault, `some (.ok v)` otherwise. -/
def try_get (f : Faucet) (env : Env) (a : AccountId) :
    Option (Except Unit BlockNumber) :=
  if env.get_fault a then some (.error ())
  else
    match f.last_request_of a with
    | some v => some (.ok v)
    | none => none

/-- Model of `can_request` (src/lib.rs lines 77-100). -/
def can_request (f : Faucet) (env : Env) : Except FaucetError Unit :=
  match try_get f env env.caller with
  | some (.ok last_drip) =>
    if satAddBlock last_drip f.cooldown > env.block_number then
      .error .InCoolDown
    else .ok ()
  | some (.error _) => .error .ValueTooLarge
  | none => .ok ()

/-- Model of `can_withdraw` (src/lib.rs lines 103-109). -/
def can_withdraw (f : Faucet) (env : Env) : Except FaucetError Unit :=
  if satAddBalance f.drip_amount 1 ≥ env.balance then .error .NotEnoughFunds
  else .ok ()

/-- Result of one `drip` call: the returned `Result`, the post-call
storage, the value transfers issued, and the events emitted. -/
structure DripOutcome where
  result : Except FaucetError Unit
  state : Faucet
  transfers : List (AccountId × Balance)
  events : List Drip

/-- Model of `drip` (src/lib.rs lines 147-169): checks
`ensure_active`, `can_withdraw`, `can_request` in that order, then
transfers `drip_amount` to the caller, records the caller's block number
via `try_insert` (whose failure maps to `ValueTooLarge` after the
transfer already happened), and emits one `Drip` event. -/
def drip (f : Faucet) (env : Env) : DripOutcome :=
  match ensure_active f with
  | .error e => ⟨.error e, f, [], []⟩
  | .ok _ =>
    match can_withdraw f env with
    | .error e => ⟨.error e, f, [], []⟩
    | .ok _ =>
      match can_request f env with
      | .error e => ⟨.error e, f, [], []⟩
      | .ok _ =>
        if env.insert_fault env.caller then
          ⟨.error .ValueTooLarge, f, [(env.caller, f.drip_amount)], []⟩
        else
          ⟨.ok (),
            { f with
              last_request_of := fun a =>
                if a = env.caller then some env.block_number
                else f.last_request_of a },
            [(env.caller, f.drip_amount)],
            [⟨f.drip_amount, env.caller⟩]⟩

/-- Result of an owner-gated call: returned `Result` and post-call
storage (these calls issue no transfer and emit no event). -/
structure OpOutcome where
  result : Except FaucetError Unit
  state : Faucet

/-- Model of `set_cooldown` (src/lib.rs lines 176-180). -/
def set_cooldown (f : Faucet) (env : Env) (c : BlockNumber) : OpOutcome :=
  match ensure_owner f env with
  | .error e => ⟨.error e, f⟩
  | .ok _ => ⟨.ok (), { f with cooldown := c }⟩

/-- Model of `start_stop` (src/lib.rs lines 185-189). -/
def start_stop (f : Faucet) (env : Env) : OpOutcome :=
  match ensure_owner f env with
  | .error e => ⟨.error e, f⟩
  | .ok _ => ⟨.ok (), { f with active := !f.active }⟩

/-- Model of `remove_ownership` (src/lib.rs lines 194-198). -/
def remove_ownership (f : Faucet) (env : Env) : OpOutcome :=
  match ensure_owner f env with
  | .error e => ⟨.error e, f⟩
  | .ok _ => ⟨.ok (), { f with owner := none }⟩

/-- Model of `set_drip_amount` (src/lib.rs lines 205-209). -/
def set_drip_amount (f : Faucet) (env : Env) (a : Balance) : OpOutcome :=
  match ensure_owner f env with
  | .error e => ⟨.error e, f⟩
  | .ok _ => ⟨.ok (), { f with drip_amount := a }⟩

/-- Model of `transfer_ownership` (src/lib.rs lines 216-220). -/
def transfer_ownership (f : Faucet) (env : Env) (o : AccountId) : OpOutcome :=
  match ensure_owner f env with
  | .error e => ⟨.error e, f⟩
  | .ok _ => ⟨.ok (), { f with owner := some o }⟩

/-- The mutating messages of the contract, as one inductive, for
statements quantifying over every operation. -/
inductive Op
  | dripOp
  | setCooldownOp (c : BlockNumber)
  | startStopOp
  | removeOwnershipOp
  | setDripAmountOp (a : Balance)
  | transferOwnershipOp (o : AccountId)

/-- Post-call storage of one mutating message. -/
def step (f : Faucet) (env : Env) : Op → Faucet
  | .dripOp => (drip f env).state
  | .setCooldownOp c => (set_cooldown f env c).state
  | .startStopOp => (start_stop f env).state
  | .removeOwnershipOp => (remove_ownership f env).state
  | .setDripAmountOp a => (set_drip_amount f env a).state
  | .transferOwnershipOp o => (transfer_ownership f env o).state

/-- Storage after a sequence of mutating calls. -/
def run (f : Faucet) : List (Env × Op) → Faucet
  | [] => f
  | (env, op) :: rest => run (step f env op) rest

/-! Basic lemmas about the guards. -/

theorem ensure_active_ok_iff (f : Faucet) :
    ensure_active f = .ok () ↔ f.active = true := by
  unfold ensure_active
  cases h : f.active <;> simp

theorem ensure_active_of_false (f : Faucet) (h : f.active = false) :
    ensure_active f = .error .NotActive := by
  unfold ensure_active
  simp [h]

theorem ensure_owner_ok_iff (f : Faucet) (env : Env) :
    ensure_owner f env = .ok () ↔ f.owner = some env.caller := by
  unfold ensure_owner
  by_cases h : f.owner = some env.caller <;> simp [h]

theorem ensure_owner_of_none (f : Faucet) (env : Env) (h : f.owner = none) :
    ensure_owner f env = .error .NotOwner := by
  unfold ensure_owner
  simp [h]

theorem can_withdraw_err_iff (f : Faucet) (env : Env) :
    can_withdraw f env = .error .NotEnoughFunds ↔
      env.balance ≤ satAddBalance f.drip_amount 1 := by
  unfold can_withdraw
  by_cases h : satAddBalance f.drip_amount 1 ≥ env.balance <;> simp [h] <;> omega

theorem can_withdraw_ok_iff (f : Faucet) (env : Env) :
    can_withdraw f env = .ok () ↔
      satAddBalance f.drip_amount 1 < env.balance := by
  unfold can_withdraw
  by_cases h : satAddBalance f.drip_amount 1 ≥ env.balance <;> simp [h] <;> omega

theorem can_request_entry (f : Faucet) (env : Env) (last_drip : BlockNumber)
    (hf : env.get_fault env.caller = false)
    (he : f.last_request_of env.caller = some last_drip) :
    can_request f env =
      if satAddBlock last_drip f.cooldown > env.block_number then
        .error .InCoolDown
      else .ok () := by
  unfold can_request try_get
  simp [hf, he]

theorem can_request_absent (f : Faucet) (env : Env)
    (hf : env.get_fault env.caller = false)
    (he : f.last_request_of env.caller = none) :
    can_request f env = .ok () := by
  unfold can_request try_get
  simp [hf, he]

/-! Case lemmas about `drip`. -/

theorem drip_of_not_active (f : Faucet) (env : Env) (h : f.active = false) :
    drip f env = ⟨.error .NotActive, f, [], []⟩ := by
  unfold drip
  simp [ensure_active_of_false f h]

theorem drip_of_withdraw_err (f : Faucet) (env : Env) (h : f.active = true)
    (hw : can_withdraw f env = .error .NotEnoughFunds) :
    drip f env = ⟨.error .NotEnoughFunds, f, [], []⟩ := by
  unfold drip ensure_active
  simp [h, hw]

theorem drip_of_request_err (f : Faucet) (env : Env) (e : FaucetError)
    (h : f.active = true) (hw : can_withdraw f env = .ok ())
    (hr : can_request f env = .error e) :
    drip f env = ⟨.error e, f, [], []⟩ := by
  unfold drip ensure_active
  simp [h, hw, hr]

theorem drip_of_insert_fault (f : Faucet) (env : Env) (h : f.active = true)
    (hw : can_withdraw f env = .ok ()) (hr : can_request f env = .ok ())
    (hi : env.insert_fault env.caller = true) :
    drip f env =
      ⟨.error .ValueTooLarge, f, [(env.caller, f.drip_amount)], []⟩ := by
  unfold drip ensure_active
  simp [h, hw, hr, hi]

theorem drip_of_success (f : Faucet) (env : Env) (h : f.active = true)
    (hw : can_withdraw f env = .ok ()) (hr : can_request f env = .ok ())
    (hi : env.insert_fault env.caller = false) :
    drip f env =
      ⟨.ok (),
        { f with
          last_request_of := fun a =>
            if a = env.caller then some env.block_number
            else f.last_request_of a },
        [(env.caller, f.drip_amount)], [⟨f.drip_amount, env.caller⟩]⟩ := by
  unfold drip ensure_active
  simp [h, hw, hr, hi]

theorem drip_ok_inv (f : Faucet) (env : Env)
    (hok : (drip f env).result = .ok ()) :
    f.active = true ∧ can_withdraw f env = .ok () ∧
      can_request f env = .ok () ∧ env.insert_fault env.caller = false := by
  unfold drip at hok
  cases hA : ensure_active f with
  | error e => rw [hA] at hok; simp at hok
  | ok u =>
    cases u
    rw [hA] at hok
    cases hW : can_withdraw f env with
    | error e => rw [hW] at hok; simp at hok
    | ok u =>
      cases u
      rw [hW] at hok
      cases hR : can_request f env with
      | error e => rw [hR] at hok; simp at hok
      | ok u =>
        cases u
        rw [hR] at hok
        cases hI : env.insert_fault env.caller
        · exact ⟨(ensure_active_ok_iff f).mp hA, rfl, rfl, rfl⟩
        · simp [hI] at hok

theorem drip_err_shape (f : Faucet) (env : Env) (e : FaucetError)
    (herr : (drip f env).result = .error e) :
    (drip f env).state = f ∧ (drip f env).events = [] ∧
      ((drip f env).transfers = [] ∨ e = .ValueTooLarge) := by
  unfold drip at herr ⊢
  cases hA : ensure_active f with
  | error e2 => simp
  | ok u =>
    cases u
    rw [hA] at herr
    cases hW : can_withdraw f env with
    | error e2 => simp
    | ok u =>
      cases u
      rw [hW] at herr
      cases hR : can_request f env with
      | error e2 => simp
      | ok u =>
        cases u
        rw [hR] at herr
        cases hI : env.insert_fault env.caller
        · simp [hI] at herr
        · simp [hI] at herr ⊢
          exact herr.symm

theorem drip_owner_eq (f : Faucet) (env : Env) :
    (drip f env).state.owner = f.owner := by
  unfold drip
  cases hA : ensure_active f with
  | error e => rfl
  | ok u =>
    cases u
    cases hW : can_withdraw f env with
    | error e => rfl
    | ok u =>
      cases u
      cases hR : can_request f env with
      | error e => rfl
      | ok u =>
        cases u
        cases hI : env.insert_fault env.caller <;> simp [hI]

/-! Case lemmas about the owner-gated messages. -/

theorem set_cooldown_eq (f : Faucet) (env : Env) (c : BlockNumber) :
    set_cooldown f env c =
      if f.owner = some env.caller then ⟨.ok (), { f with cooldown := c }⟩
      else ⟨.error .NotOwner, f⟩ := by
  unfold set_cooldown ensure_owner
  by_cases h : f.owner = some env.caller <;> simp [h]

theorem start_stop_eq (f : Faucet) (env : Env) :
    start_stop f env =
      if f.owner = some env.caller then
        ⟨.ok (), { f with active := !f.active }⟩
      else ⟨.error .NotOwner, f⟩ := by
  unfold start_stop ensure_owner
  by_cases h : f.owner = some env.caller <;> simp [h]

theorem remove_ownership_eq (f : Faucet) (env : Env) :
    remove_ownership f env =
      if f.owner = some env.caller then ⟨.ok (), { f with owner := none }⟩
      else ⟨.error .NotOwner, f⟩ := by
  unfold remove_ownership ensure_owner
  by_cases h : f.owner = some env.caller <;> simp [h]

theorem set_drip_amount_eq (f : Faucet) (env : Env) (a : Balance) :
    set_drip_amount f env a =
      if f.owner = some env.caller then ⟨.ok (), { f with drip_amount := a }⟩
      else ⟨.error .NotOwner, f⟩ := by
  unfold set_drip_amount ensure_owner
  by_cases h : f.owner = some env.caller <;> simp [h]

theorem transfer_ownership_eq (f : Faucet) (env : Env) (o : AccountId) :
    transfer_ownership f env o =
      if f.owner = some env.caller then ⟨.ok (), { f with owner := some o }⟩
      else ⟨.error .NotOwner, f⟩ := by
  unfold transfer_ownership ensure_owner
  by_cases h : f.owner = some env.caller <;> simp [h]

theorem step_owner_none (f : Faucet) (env : Env) (op : Op)
    (h : f.owner = none) : (step f env op).owner = none := by
  cases op with
  | dripOp => rw [step, drip_owner_eq]; exact h
  | setCooldownOp c => rw [step, set_cooldown_eq]; simp [h]
  | startStopOp => rw [step, start_stop_eq]; simp [h]
  | removeOwnershipOp => rw [step, remove_ownership_eq]; simp [h]
  | setDripAmountOp a => rw [step, set_drip_amount_eq]; simp [h]
  | transferOwnershipOp o => rw [step, transfer_ownership_eq]; simp [h]

theorem run_owner_none (f : Faucet) (ops : List (Env × Op))
    (h : f.owner = none) : (run f ops).owner = none := by
  induction ops generalizing f with
  | nil => exact h
  | cons p rest ih =>
    rw [run]
    exact ih _ (step_owner_none f p.1 p.2 h)

theorem sub_gt_one_of_satAdd_lt (da bal : Nat)
    (h1 : min (da + 1) 340282366920938463463374607431768211455 < bal)
    (hb : bal ≤ 340282366920938463463374607431768211455) :
    1 < bal - da := by
  omega

/-! Claim theorems. -/

/-- C1: for a caller with a recorded last drip height `last_drip` and a
fault-free storage lookup, the cooldown check permits the request iff
`last_drip + cooldown ≤ current_block` with saturating addition;
otherwise `drip` (when the earlier guards pass) returns `InCoolDown`.
A caller with no recorded entry always passes the check. -/
theorem C1_cooldown_check (f : Faucet) (env : Env)
    (hf : env.get_fault env.caller = false) :
    (∀ last_drip, f.last_request_of env.caller = some last_drip →
      ((can_request f env = .ok () ↔
          satAddBlock last_drip f.cooldown ≤ env.block_number) ∧
       (f.active = true → can_withdraw f env = .ok () →
          env.block_number < satAddBlock last_drip f.cooldown →
          (drip f env).result = .error .InCoolDown))) ∧
    (f.last_request_of env.caller = none → can_request f env = .ok ()) := by
  constructor
  · intro last_drip he
    constructor
    · rw [can_request_entry f env last_drip hf he]
      by_cases hlt : satAddBlock last_drip f.cooldown > env.block_number <;>
        simp [hlt] <;> omega
    · intro hA hw hlt
      have hr : can_request f env = .error .InCoolDown := by
        rw [can_request_entry f env last_drip hf he]
        simp [hlt]
      rw [drip_of_request_err f env _ hA hw hr]
  · intro he
    exact can_request_absent f env hf he

def fC1 : Faucet :=
  ⟨true, 3, 5, some 0, fun a => if a = 1 then some 5 else none⟩

def envC1 : Env := ⟨1, 8, 100, fun _ => false, fun _ => false⟩

theorem C1_cooldown_check_witness : can_request fC1 envC1 = .ok () :=
  (((C1_cooldown_check fC1 envC1 rfl).1 5 rfl).1).mpr (by decide)

/-- C2: the balance check fails with `NotEnoughFunds` iff
`drip_amount + 1 ≥ balance` with saturating addition, and passes iff
`drip_amount + 1 < balance`; hence after any successful `drip` the
contract balance stays strictly above the reserved minimum of 1 unit. -/
theorem C2_balance_check (f : Faucet) (env : Env) :
    (can_withdraw f env = .error .NotEnoughFunds ↔
      satAddBalance f.drip_amount 1 ≥ env.balance) ∧
    (can_withdraw f env = .ok () ↔
      satAddBalance f.drip_amount 1 < env.balance) ∧
    (env.balance ≤ balanceMax → (drip f env).result = .ok () →
      1 < env.balance - f.drip_amount) := by
  refine ⟨(can_withdraw_err_iff f env).trans Iff.rfl,
    can_withdraw_ok_iff f env, fun hb hok => ?_⟩
  obtain ⟨-, hW, -, -⟩ := drip_ok_inv f env hok
  have h1 := (can_withdraw_ok_iff f env).mp hW
  have hmax : balanceMax = 340282366920938463463374607431768211455 := by
    norm_num [balanceMax]
  unfold satAddBalance at h1
  rw [hmax] at h1 hb
  exact sub_gt_one_of_satAdd_lt f.drip_amount env.balance h1 hb

def fC2 : Faucet := ⟨true, 0, 100, some 0, fun _ => none⟩

def envC2 : Env := ⟨1, 0, 1000, fun _ => false, fun _ => false⟩

theorem C2_balance_check_witness : 1 < envC2.balance - fC2.drip_amount :=
  (C2_balance_check fC2 envC2).2.2 (by decide) rfl

/-- C3: `drip` evaluates `ensure_active`, then `can_withdraw`, then
`can_request`; the first failing guard's error is returned with no side
effect, and in particular a caller in cooldown on an active but
underfunded faucet receives `NotEnoughFunds`, not `InCoolDown`. -/
theorem C3_guard_order (f : Faucet) (env : Env) :
    (f.active = false → drip f env = ⟨.error .NotActive, f, [], []⟩) ∧
    (f.active = true → can_withdraw f env = .error .NotEnoughFunds →
      drip f env = ⟨.error .NotEnoughFunds, f, [], []⟩) ∧
    (∀ e, f.active = true → can_withdraw f env = .ok () →
      can_request f env = .error e → drip f env = ⟨.error e, f, [], []⟩) ∧
    (∀ last_drip, f.active = true →
      env.balance ≤ satAddBalance f.drip_amount 1 →
      f.last_request_of env.caller = some last_drip →
      env.block_number < satAddBlock last_drip f.cooldown →
      (drip f env).result = .error .NotEnoughFunds) := by
  refine ⟨drip_of_not_active f env, drip_of_withdraw_err f env,
    fun e hA hw hr => drip_of_request_err f env e hA hw hr, ?_⟩
  intro last_drip hA hb _he _hc
  rw [drip_of_withdraw_err f env hA ((can_withdraw_err_iff f env).mpr hb)]

def fC3 : Faucet :=
  ⟨true, 10, 1000, some 0, fun a => if a = 1 then some 0 else none⟩

def envC3 : Env := ⟨1, 5, 1000, fun _ => false, fun _ => false⟩

theorem C3_guard_order_witness :
    (drip fC3 envC3).result = .error .NotEnoughFunds :=
  (C3_guard_order fC3 envC3).2.2.2 0 rfl (by decide) rfl (by decide)

/-- C4: a successful `drip` by caller `c` at block `b` issues exactly one
transfer of `drip_amount` to `c`, records `last_request_of c = b`, and
emits exactly one `Drip` event whose value is `drip_amount` and whose
recipient is `c`; every other outcome of `drip` emits no event. -/
theorem C4_drip_effects (f : Faucet) (env : Env) :
    ((drip f env).result = .ok () →
      (drip f env).transfers = [(env.caller, f.drip_amount)] ∧
      (drip f env).state.last_request_of env.caller = some env.block_number ∧
      (drip f env).events = [⟨f.drip_amount, env.caller⟩]) ∧
    (∀ e, (drip f env).result = .error e → (drip f env).events = []) := by
  constructor
  · intro hok
    obtain ⟨hA, hW, hR, hI⟩ := drip_ok_inv f env hok
    rw [drip_of_success f env hA hW hR hI]
    exact ⟨rfl, by simp, rfl⟩
  · intro e herr
    exact (drip_err_shape f env e herr).2.1

def fC4 : Faucet := ⟨true, 7, 40, some 0, fun _ => none⟩

def envC4 : Env := ⟨3, 12, 1000, fun _ => false, fun _ => false⟩

theorem C4_drip_effects_witness :
    (drip fC4 envC4).transfers = [(3, 40)] ∧
    (drip fC4 envC4).state.last_request_of 3 = some 12 ∧
    (drip fC4 envC4).events = [⟨40, 3⟩] :=
  (C4_drip_effects fC4 envC4).1 rfl

/-- C5: whenever the faucet is inactive, `drip` returns `NotActive` and
leaves the state untouched, whatever the caller, cooldown record,
balance, or ownership state. -/
theorem C5_not_active (f : Faucet) (env : Env) (h : f.active = false) :
    drip f env = ⟨.error .NotActive, f, [], []⟩ :=
  drip_of_not_active f env h

def fC5 : Faucet :=
  ⟨false, 5, 10, none, fun a => if a = 2 then some 100 else none⟩

def envC5 : Env := ⟨2, 0, 0, fun _ => false, fun _ => false⟩

theorem C5_not_active_witness :
    drip fC5 envC5 = ⟨.error .NotActive, fC5, [], []⟩ :=
  C5_not_active fC5 envC5 rfl

/-- C8: when called by the owner, `start_stop` flips `active`, and two
consecutive owner calls restore the original `active` value, leaving
`cooldown`, `drip_amount`, `owner` and `last_request_of` unchanged. -/
theorem C8_start_stop_toggle (f : Faucet) (env env2 : Env)
    (h1 : f.owner = some env.caller) (h2 : f.owner = some env2.caller) :
    ((start_stop f env).result = .ok () ∧
     (start_stop f env).state.active = !f.active ∧
     (start_stop f env).state.cooldown = f.cooldown ∧
     (start_stop f env).state.drip_amount = f.drip_amount ∧
     (start_stop f env).state.owner = f.owner ∧
     (start_stop f env).state.last_request_of = f.last_request_of) ∧
    ((start_stop (start_stop f env).state env2).result = .ok () ∧
     (start_stop (start_stop f env).state env2).state.active = f.active ∧
     (start_stop (start_stop f env).state env2).state.cooldown =
       f.cooldown ∧
     (start_stop (start_stop f env).state env2).state.drip_amount =
       f.drip_amount ∧
     (start_stop (start_stop f env).state env2).state.owner = f.owner ∧
     (start_stop (start_stop f env).state env2).state.last_request_of =
       f.last_request_of) := by
  have e1 : start_stop f env = ⟨.ok (), { f with active := !f.active }⟩ := by
    rw [start_stop_eq, if_pos h1]
  have e2 : start_stop { f with active := !f.active } env2 =
      ⟨.ok (), { f with active := !(!f.active) }⟩ := by
    rw [start_stop_eq]
    exact if_pos h2
  rw [e1]
  refine ⟨⟨rfl, rfl, rfl, rfl, rfl, rfl⟩, ?_⟩
  show (start_stop { f with active := !f.active } env2).result = _ ∧ _
  rw [e2]
  exact ⟨rfl, by simp, rfl, rfl, rfl, rfl⟩

def fC8 : Faucet := ⟨true, 5, 10, some 7, fun _ => none⟩

def envC8 : Env := ⟨7, 0, 0, fun _ => false, fun _ => false⟩

theorem C8_start_stop_toggle_witness :
    (start_stop (start_stop fC8 envC8).state envC8).state.active =
      fC8.active :=
  (C8_start_stop_toggle fC8 envC8 envC8 rfl rfl).2.2.1

/-- C9: a successful `drip` by caller `c` changes only the
`last_request_of` entry of `c`: `active`, `cooldown`, `drip_amount` and
`owner` are unchanged, and every other account's entry is unchanged. -/
theorem C9_drip_frame (f : Faucet) (env : Env)
    (hok : (drip f env).result = .ok ()) :
    (drip f env).state.active = f.active ∧
    (drip f env).state.cooldown = f.cooldown ∧
    (drip f env).state.drip_amount = f.drip_amount ∧
    (drip f env).state.owner = f.owner ∧
    ∀ a, a ≠ env.caller →
      (drip f env).state.last_request_of a = f.last_request_of a := by
  obtain ⟨hA, hW, hR, hI⟩ := drip_ok_inv f env hok
  rw [drip_of_success f env hA hW hR hI]
  exact ⟨rfl, rfl, rfl, rfl, fun a ha => by simp [ha]⟩

def fC9 : Faucet :=
  ⟨true, 2, 7, some 4, fun a => if a = 9 then some 1 else none⟩

def envC9 : Env := ⟨5, 30, 50, fun _ => false, fun _ => false⟩

theorem C9_drip_frame_witness :
    (drip fC9 envC9).state.owner = fC9.owner ∧
    (drip fC9 envC9).state.last_request_of 9 = fC9.last_request_of 9 :=
  ⟨(C9_drip_frame fC9 envC9 rfl).2.2.2.1,
   (C9_drip_frame fC9 envC9 rfl).2.2.2.2 9 (by decide)⟩

/-- C10: when `drip_amount` is the maximum representable `Balance`, the
saturating `drip_amount + 1` clamps to the maximum, which is at least
every possible balance, so `drip` on an active faucet always returns
`NotEnoughFunds`. -/
theorem C10_max_drip_amount (f : Faucet) (env : Env) (hA : f.active = true)
    (hD : f.drip_amount = balanceMax) (hB : env.balance ≤ balanceMax) :
    (drip f env).result = .error .NotEnoughFunds := by
  have hw : can_withdraw f env = .error .NotEnoughFunds := by
    rw [can_withdraw_err_iff, hD]
    unfold satAddBalance
    rw [min_eq_right (Nat.le_succ _)]
    exact hB
  rw [drip_of_withdraw_err f env hA hw]

def fC10 : Faucet := ⟨true, 0, balanceMax, some 0, fun _ => none⟩

def envC10 : Env := ⟨1, 0, 123456, fun _ => false, fun _ => false⟩

theorem C10_max_drip_amount_witness :
    (drip fC10 envC10).result = .error .NotEnoughFunds :=
  C10_max_drip_amount fC10 envC10 rfl rfl (by decide)

/-- C6: `owner` is preserved by `drip`, `set_cooldown`, `start_stop` and
`set_drip_amount`; `transfer_ownership` either preserves it or sets it to
`some b`, `remove_ownership` either preserves it or sets it to `none`,
and both succeed only when the caller is the current owner; once `owner`
is `none`, every owner-gated operation returns `NotOwner` and `owner`
stays `none` under every sequence of operations. -/
theorem C6_ownership (f : Faucet) (env : Env) :
    ((drip f env).state.owner = f.owner) ∧
    (∀ c, (set_cooldown f env c).state.owner = f.owner) ∧
    ((start_stop f env).state.owner = f.owner) ∧
    (∀ a, (set_drip_amount f env a).state.owner = f.owner) ∧
    (∀ o, (transfer_ownership f env o).result = .ok () →
      f.owner = some env.caller) ∧
    ((remove_ownership f env).result = .ok () →
      f.owner = some env.caller) ∧
    (∀ o, (transfer_ownership f env o).state.owner = f.owner ∨
      (transfer_ownership f env o).state.owner = some o) ∧
    ((remove_ownership f env).state.owner = f.owner ∨
      (remove_ownership f env).state.owner = none) ∧
    (f.owner = none →
      (∀ c, (set_cooldown f env c).result = .error .NotOwner) ∧
      ((start_stop f env).result = .error .NotOwner) ∧
      ((remove_ownership f env).result = .error .NotOwner) ∧
      (∀ a, (set_drip_amount f env a).result = .error .NotOwner) ∧
      (∀ o, (transfer_ownership f env o).result = .error .NotOwner)) ∧
    (∀ ops : List (Env × Op), f.owner = none →
      (run f ops).owner = none) := by
  constructor
  · exact drip_owner_eq f env
  constructor
  · intro c
    rw [set_cooldown_eq]
    by_cases h : f.owner = some env.caller
    · rw [if_pos h]
    · rw [if_neg h]
  constructor
  · rw [start_stop_eq]
    by_cases h : f.owner = some env.caller
    · rw [if_pos h]
    · rw [if_neg h]
  constructor
  · intro a
    rw [set_drip_amount_eq]
    by_cases h : f.owner = some env.caller
    · rw [if_pos h]
    · rw [if_neg h]
  constructor
  · intro o hok
    rw [transfer_ownership_eq] at hok
    by_cases h : f.owner = some env.caller
    · exact h
    · rw [if_neg h] at hok
      exact absurd hok (by simp)
  constructor
  · intro hok
    rw [remove_ownership_eq] at hok
    by_cases h : f.owner = some env.caller
    · exact h
    · rw [if_neg h] at hok
      exact absurd hok (by simp)
  constructor
  · intro o
    rw [transfer_ownership_eq]
    by_cases h : f.owner = some env.caller
    · right
      rw [if_pos h]
    · left
      rw [if_neg h]
  constructor
  · rw [remove_ownership_eq]
    by_cases h : f.owner = some env.caller
    · right
      rw [if_pos h]
    · left
      rw [if_neg h]
  constructor
  · intro hnone
    have h : ¬ f.owner = some env.caller := by rw [hnone]; simp
    refine ⟨fun c => ?_, ?_, ?_, fun a => ?_, fun o => ?_⟩ <;>
      simp [set_cooldown_eq, start_stop_eq, remove_ownership_eq,
        set_drip_amount_eq, transfer_ownership_eq, h]
  · exact fun ops hnone => run_owner_none f ops hnone

def fC6 : Faucet := ⟨true, 1, 2, none, fun _ => none⟩

def envC6 : Env := ⟨0, 0, 0, fun _ => false, fun _ => false⟩

theorem C6_ownership_witness :
    (set_cooldown fC6 envC6 99).result = .error .NotOwner ∧
    (run fC6 [(envC6, .transferOwnershipOp 5), (envC6, .dripOp)]).owner =
      none :=
  ⟨((C6_ownership fC6 envC6).2.2.2.2.2.2.2.2.1 rfl).1 99,
   (C6_ownership fC6 envC6).2.2.2.2.2.2.2.2.2
     [(envC6, .transferOwnershipOp 5), (envC6, .dripOp)] rfl⟩

/-- C7 (amended): on any error the storage is unchanged and no `Drip`
event is emitted; the owner-gated operations also make no transfer, and
`drip` makes no transfer either except in the single case where the
post-transfer bookkeeping write fails with `ValueTooLarge`, in which
case the transfer to the caller has already occurred. -/
theorem C7_atomicity (f : Faucet) (env : Env) :
    (∀ e, (drip f env).result = .error e →
      (drip f env).state = f ∧ (drip f env).events = [] ∧
      ((drip f env).transfers = [] ∨ e = .ValueTooLarge)) ∧
    (∀ c e, (set_cooldown f env c).result = .error e →
      (set_cooldown f env c).state = f) ∧
    (∀ e, (start_stop f env).result = .error e →
      (start_stop f env).state = f) ∧
    (∀ e, (remove_ownership f env).result = .error e →
      (remove_ownership f env).state = f) ∧
    (∀ a e, (set_drip_amount f env a).result = .error e →
      (set_drip_amount f env a).state = f) ∧
    (∀ o e, (transfer_ownership f env o).result = .error e →
      (transfer_ownership f env o).state = f) := by
  constructor
  · exact fun e herr => drip_err_shape f env e herr
  constructor
  · intro c e herr
    rw [set_cooldown_eq] at herr ⊢
    by_cases h : f.owner = some env.caller
    · rw [if_pos h] at herr
      exact absurd herr (by simp)
    · rw [if_neg h]
  constructor
  · intro e herr
    rw [start_stop_eq] at herr ⊢
    by_cases h : f.owner = some env.caller
    · rw [if_pos h] at herr
      exact absurd herr (by simp)
    · rw [if_neg h]
  constructor
  · intro e herr
    rw [remove_ownership_eq] at herr ⊢
    by_cases h : f.owner = some env.caller
    · rw [if_pos h] at herr
      exact absurd herr (by simp)
    · rw [if_neg h]
  constructor
  · intro a e herr
    rw [set_drip_amount_eq] at herr ⊢
    by_cases h : f.owner = some env.caller
    · rw [if_pos h] at herr
      exact absurd herr (by simp)
    · rw [if_neg h]
  · intro o e herr
    rw [transfer_ownership_eq] at herr ⊢
    by_cases h : f.owner = some env.caller
    · rw [if_pos h] at herr
      exact absurd herr (by simp)
    · rw [if_neg h]

def fC7 : Faucet := ⟨true, 0, 5, some 1, fun _ => none⟩

def envC7 : Env := ⟨2, 10, 100, fun _ => false, fun _ => true⟩

/-- C7 counterexample: with every guard passing but the bookkeeping
write failing, `drip` returns the error `ValueTooLarge` even though the
transfer of `drip_amount` to the caller has been made, so an error
return does not imply that no effect occurred. -/
theorem C7_atomicity_counterexample :
    (drip fC7 envC7).result = .error .ValueTooLarge ∧
    (drip fC7 envC7).transfers = [(2, 5)] :=
  ⟨rfl, rfl⟩

def fC7b : Faucet := ⟨true, 0, 5, some 1, fun _ => none⟩

def envC7b : Env := ⟨9, 10, 100, fun _ => false, fun _ => false⟩

theorem C7_atomicity_witness :
    (set_cooldown fC7b envC7b 3).state = fC7b :=
  (C7_atomicity fC7b envC7b).2.1 3 .NotOwner rfl

end FaucetContract
